import Mathlib

/-!
Shallow embedding of the ScoutBot-301 trading engine core
(`src/trader/position_sizer.py`, `src/trader/risk_model.py`,
`src/trader/execution_adapter.py`, `src/strategy/signal_router.py`,
`src/strategy/swing.py`) together with proofs of the specification claims.

Python floats are modelled as rationals (`ℚ`); the `math.isfinite` guards of
the source drop out because `ℚ` has no NaN/infinity.  `None`-able values are
`Option`s, process-global mutable state is passed explicitly, and every
external collaborator call (broker, price router, pandas indicator code from
the `ta` library) is an explicit input of an environment record: `none`
models the call raising an exception where the source catches one.
-/

namespace ScoutBot

/-! ### trader/position_sizer.py -/

/-- `risk_per_share(entry_price, stop_price) = abs(entry - stop)`
(src/trader/position_sizer.py line 6).  The non-numeric-input branch that
returns `0.0` is outside the rational model. -/
def risk_per_share (entry_price stop_price : ℚ) : ℚ :=
  |entry_price - stop_price|

/-- `size_position` (src/trader/position_sizer.py lines 15-45): share quantity
sized by risk-per-trade and notional caps.  `equity = none` models
`equity is None`. -/
def size_position (entry_price stop_price : ℚ) (equity : Option ℚ)
    (max_risk_pct max_notional : ℚ) (min_qty : ℤ) : ℤ :=
  let risk := risk_per_share entry_price stop_price
  if risk ≤ 0 then 0
  else
    match equity with
    | none => 0
    | some eqv =>
      if eqv ≤ 0 then 0
      else if max_risk_pct ≤ 0 then 0
      else
        let risk_cap := eqv * max_risk_pct
        if risk_cap ≤ 0 then 0
        else
          let max_by_risk := ⌊risk_cap / risk⌋
          let max_by_notional :=
            if entry_price ≤ 0 ∨ max_notional ≤ 0 then max_by_risk
            else ⌊max_notional / entry_price⌋
          let qty := min max_by_risk max_by_notional
          if qty < min_qty then 0 else qty

/-! ### trader/risk_model.py : configuration surface

`Settings` collects the `core.config` fields the embedded code reads, and
`RiskEnv` the module-level constants of `risk_model.py` that come from
environment variables (`DAILY_BUDGET`, `MAX_POSITIONS`, `MAX_POSITION_SIZE`).
-/

structure Settings where
  dry_run : Bool
  execution_halt_cooldown_seconds : ℤ
  max_daily_loss_pct : ℚ
  max_position_pct : ℚ
  max_risk_pct : ℚ
  atr_multiplier : ℚ
  crash_stop_loss_pct : ℚ
  crash_take_profit_pct : ℚ
  crash_max_hold_minutes : ℤ
  crash_max_positions : ℤ
  default_max_hold_minutes : ℤ
  deriving Repr, DecidableEq

structure RiskEnv where
  DAILY_BUDGET : ℚ
  MAX_POSITIONS : ℤ
  MAX_POSITION_SIZE : ℚ
  deriving Repr, DecidableEq

/-- `STOP_LOSS_PCT = 0.006` (src/trader/risk_model.py line 12). -/
def STOP_LOSS_PCT : ℚ := 6 / 1000

/-- `TAKE_PROFIT_PCT = 0.018` (src/trader/risk_model.py line 13). -/
def TAKE_PROFIT_PCT : ℚ := 18 / 1000

/-- Round-half-to-even on rationals, the rounding rule of Python `round`. -/
def roundHalfEven (x : ℚ) : ℤ :=
  if x - ⌊x⌋ < 1 / 2 then ⌊x⌋
  else if 1 / 2 < x - ⌊x⌋ then ⌊x⌋ + 1
  else if ⌊x⌋ % 2 = 0 then ⌊x⌋ else ⌊x⌋ + 1

/-- Python `round(x, 2)` on the rational model. -/
def round2 (x : ℚ) : ℚ :=
  (roundHalfEven (x * 100) : ℚ) / 100

/-- `stop_loss_price` (src/trader/risk_model.py lines 61-63). -/
def stop_loss_price (s : Settings) (entry_price : ℚ) (crash_mode : Bool) : ℚ :=
  round2 (entry_price * (1 - (if crash_mode then s.crash_stop_loss_pct else STOP_LOSS_PCT)))

/-- `take_profit_price` (src/trader/risk_model.py lines 66-68). -/
def take_profit_price (s : Settings) (entry_price : ℚ) (crash_mode : Bool) : ℚ :=
  round2 (entry_price * (1 + (if crash_mode then s.crash_take_profit_pct else TAKE_PROFIT_PCT)))

/-- `daily_loss_exceeded` (src/trader/risk_model.py lines 71-77). -/
def daily_loss_exceeded (s : Settings) (equity_return_pct : Option ℚ) : Bool :=
  match equity_return_pct with
  | none => false
  | some pct =>
    if s.max_daily_loss_pct ≤ 0 then false
    else decide (pct ≤ -s.max_daily_loss_pct)

/-- `_max_position_notional` (src/trader/risk_model.py lines 80-89).  The
Python truthiness test `if max_pos_size` is `max_pos_size ≠ 0`. -/
def max_position_notional (e : RiskEnv) (s : Settings) (equity : Option ℚ)
    (crash_mode : Bool) : ℚ :=
  let max_positions := if crash_mode then s.crash_max_positions else e.MAX_POSITIONS
  let max_pos_size :=
    if crash_mode then e.DAILY_BUDGET * (80 / 100) / (max_positions : ℚ)
    else e.MAX_POSITION_SIZE
  match equity with
  | none => max_pos_size
  | some eqv =>
    if eqv ≤ 0 then max_pos_size
    else if s.max_position_pct ≤ 0 then max_pos_size
    else if max_pos_size ≠ 0 then min max_pos_size (eqv * s.max_position_pct)
    else eqv * s.max_position_pct

/-- `can_open_position` (src/trader/risk_model.py lines 96-108). -/
def can_open_position (e : RiskEnv) (s : Settings) (current_positions : ℤ)
    (allocation_amount : ℚ) (crash_mode : Bool) (equity : Option ℚ)
    (equity_return_pct : Option ℚ) : Bool :=
  if daily_loss_exceeded s equity_return_pct then false
  else
    decide (current_positions < (if crash_mode then s.crash_max_positions else e.MAX_POSITIONS)) &&
    decide (allocation_amount ≤ max_position_notional e s equity crash_mode)

/-! ### Sample configuration used by concrete witnesses -/

/-- The default configuration values of `core/config.py` and `risk_model.py`
(`MAX_DAILY_LOSS_PCT=0.03`, `MAX_RISK_PCT=0.005`, `ATR_MULTIPLIER=2.5`,
cooldown 300s, crash table `{0.005, 0.015, 60, 3}`, default hold 90). -/
def sampleSettings : Settings where
  dry_run := false
  execution_halt_cooldown_seconds := 300
  max_daily_loss_pct := 3 / 100
  max_position_pct := 0
  max_risk_pct := 5 / 1000
  atr_multiplier := 5 / 2
  crash_stop_loss_pct := 5 / 1000
  crash_take_profit_pct := 15 / 1000
  crash_max_hold_minutes := 60
  crash_max_positions := 3
  default_max_hold_minutes := 90

/-- Default module constants of `risk_model.py`: `DAILY_BUDGET=10000`,
`MAX_POSITIONS=5`, `MAX_POSITION_SIZE=DAILY_BUDGET/3`. -/
def sampleRiskEnv : RiskEnv where
  DAILY_BUDGET := 10000
  MAX_POSITIONS := 5
  MAX_POSITION_SIZE := 10000 / 3

/-! ### Claim C2 -/

/-- C2: `size_position` returns
`min(floor(equity*max_risk_pct/|entry-stop|), floor(max_notional/entry))` when all
inputs are valid, with the notional bound falling back to the risk bound when
`entry ≤ 0` or `max_notional ≤ 0`; it returns 0 whenever risk-per-share is 0
(non-positive), equity is absent or non-positive, `max_risk_pct` is non-positive,
or the computed quantity is below `min_qty`; and
`size_position(50, 49, equity=100000, max_risk_pct=0.01, max_notional=10000) = 200`.
(The NaN/infinity guards of the source are vacuous in the rational model.) -/
theorem c2_size_position_spec (entry stop eqv mrp mnot : ℚ) (minq : ℤ) :
    (risk_per_share entry stop = 0 →
      size_position entry stop (some eqv) mrp mnot minq = 0) ∧
    (size_position entry stop none mrp mnot minq = 0) ∧
    (eqv ≤ 0 → size_position entry stop (some eqv) mrp mnot minq = 0) ∧
    (mrp ≤ 0 → size_position entry stop (some eqv) mrp mnot minq = 0) ∧
    (0 < risk_per_share entry stop → 0 < eqv → 0 < mrp →
      (minq ≤ min ⌊eqv * mrp / risk_per_share entry stop⌋
            (if entry ≤ 0 ∨ mnot ≤ 0 then ⌊eqv * mrp / risk_per_share entry stop⌋
              else ⌊mnot / entry⌋) →
        size_position entry stop (some eqv) mrp mnot minq =
          min ⌊eqv * mrp / risk_per_share entry stop⌋
            (if entry ≤ 0 ∨ mnot ≤ 0 then ⌊eqv * mrp / risk_per_share entry stop⌋
              else ⌊mnot / entry⌋)) ∧
      (min ⌊eqv * mrp / risk_per_share entry stop⌋
            (if entry ≤ 0 ∨ mnot ≤ 0 then ⌊eqv * mrp / risk_per_share entry stop⌋
              else ⌊mnot / entry⌋) < minq →
        size_position entry stop (some eqv) mrp mnot minq = 0)) ∧
    size_position 50 49 (some 100000) (1 / 100) 10000 1 = 200 := by
  have habs : (0 : ℚ) ≤ risk_per_share entry stop := abs_nonneg _
  refine ⟨?_, ?_, ?_, ?_, ?_, ?_⟩
  · intro h
    simp [size_position, h]
  · simp [size_position]
  · intro h
    simp [size_position, h]
  · intro h
    simp [size_position, h]
  · intro hrisk heqv hmrp
    have hr : ¬risk_per_share entry stop ≤ 0 := not_le.mpr hrisk
    have hcap : ¬eqv * mrp ≤ 0 := not_le.mpr (mul_pos heqv hmrp)
    constructor
    · intro hmin
      simp [size_position, hr, not_le.mpr heqv, not_le.mpr hmrp, hcap, not_lt.mpr hmin]
    · intro hmin
      simp only [size_position, hr, if_false]
      simp [not_le.mpr heqv, not_le.mpr hmrp, hcap, hmin]
  · norm_num [size_position, risk_per_share]

/-- Witness for C2 at the spec's second worked example:
`size_position(entry=100, stop=99, equity=1000000, max_risk_pct=0.01,
max_notional=500) = 5`. -/
theorem c2_size_position_witness :
    size_position 100 99 (some 1000000) (1 / 100) 500 1 = 5 := by
  have h := ((c2_size_position_spec 100 99 1000000 (1 / 100) 500 1).2.2.2.2.1
      (by norm_num [risk_per_share]) (by norm_num) (by norm_num)).1
      (by norm_num [risk_per_share])
  rw [h]
  norm_num [risk_per_share]

/-! ### Claim C6 -/

/-- C6: `can_open_position` returns false whenever `daily_loss_exceeded` holds
(regardless of position count), and otherwise returns true iff
`current_positions < max_positions(crash_mode)` and
`allocation_amount ≤ max_position_notional(equity, crash_mode)`;
`daily_loss_exceeded` is false for an absent input and, with a positive
configured limit, true iff `equity_return_pct ≤ -max_daily_loss_pct`
(and always false with a non-positive limit). -/
theorem c6_can_open_position_spec (e : RiskEnv) (s : Settings) (cur : ℤ) (alloc : ℚ)
    (crash : Bool) (equity : Option ℚ) (ret : Option ℚ) :
    (daily_loss_exceeded s ret = true →
      can_open_position e s cur alloc crash equity ret = false) ∧
    (can_open_position e s cur alloc crash equity ret = true ↔
      daily_loss_exceeded s ret = false ∧
      cur < (if crash then s.crash_max_positions else e.MAX_POSITIONS) ∧
      alloc ≤ max_position_notional e s equity crash) ∧
    daily_loss_exceeded s none = false ∧
    (∀ q : ℚ, 0 < s.max_daily_loss_pct →
      (daily_loss_exceeded s (some q) = true ↔ q ≤ -s.max_daily_loss_pct)) ∧
    (∀ q : ℚ, s.max_daily_loss_pct ≤ 0 → daily_loss_exceeded s (some q) = false) := by
  refine ⟨?_, ?_, ?_, ?_, ?_⟩
  · intro h
    simp [can_open_position, h]
  · unfold can_open_position
    rcases hd : daily_loss_exceeded s ret with _ | _ <;> simp [hd]
  · rfl
  · intro q hpos
    simp [daily_loss_exceeded, not_le.mpr hpos]
  · intro q hnp
    simp [daily_loss_exceeded, hnp]

/-- Witness for C6: with the default limit 0.03 and a −5% daily return, the gate
denies a new position even with zero open positions and a tiny allocation. -/
theorem c6_can_open_position_witness :
    can_open_position sampleRiskEnv sampleSettings 0 100 false none (some (-(5 / 100))) = false := by
  refine (c6_can_open_position_spec sampleRiskEnv sampleSettings 0 100 false none
      (some (-(5 / 100)))).1 ?_
  have h := (c6_can_open_position_spec sampleRiskEnv sampleSettings 0 100 false none
      (some (-(5 / 100)))).2.2.2.1 (-(5 / 100)) (by norm_num [sampleSettings])
  rw [h]
  norm_num [sampleSettings]

/-! ### trader/risk_model.py : exit engine -/

/-- The `entry_timestamp` field of a position record: absent (`None`), present
but not float-coercible, or a numeric epoch timestamp. -/
inductive EntryTs where
  | absent
  | nonNumeric
  | ts (t : ℚ)
  deriving Repr, DecidableEq

/-- A position record as read by `should_exit` (dict or SDK object; missing
prices default to `0.0` via `position.get(..., 0.0)`).  The optional
percentage/minutes fields are `none` when absent or not float-coercible, which
`_coerce_pct` / `_coerce_minutes` treat the same way. -/
structure Position where
  current_price : ℚ
  entry_price : ℚ
  symbol : Option String
  data_source : Option String
  take_profit_pct : Option ℚ
  stop_loss_pct : Option ℚ
  max_hold_minutes : Option ℚ
  entry_timestamp : EntryTs
  deriving Repr, DecidableEq

/-- One OHLCV aggregate row of the dataframe built by
`PriceRouter.aggregates_to_dataframe` (columns used by the exit engine:
`timestamp`, `high`, `low`, `close`). -/
structure Bar where
  timestamp : ℚ
  high : ℚ
  low : ℚ
  close : ℚ
  deriving Repr, DecidableEq

/-- External inputs of one `should_exit` evaluation: the wall clock, the
result of `price_router.get_aggregates` + `aggregates_to_dataframe`
(`none` = the call raised; `some none` = `df is None or df.empty`), the value
of the `passes_exit_filter(df)` collaborator call, and the value of
`_should_force_exit_on_error(symbol)` for the error path. -/
structure ExitEnv where
  now : ℚ
  bars : Option (Option (List Bar))
  exit_filter : Bool
  force_exit_on_error : Bool
  deriving Repr, DecidableEq

/-- `_coerce_pct` (src/trader/risk_model.py lines 41-48). -/
def coerce_pct (value : Option ℚ) (fallback : ℚ) : ℚ :=
  match value with
  | none => fallback
  | some pct => if pct ≤ 0 ∨ 1 ≤ pct then fallback else pct

/-- Python `int()` truncation toward zero on the rational model. -/
def truncToInt (q : ℚ) : ℤ :=
  if q < 0 then -⌊-q⌋ else ⌊q⌋

/-- `_coerce_minutes` (src/trader/risk_model.py lines 51-58). -/
def coerce_minutes (value : Option ℚ) (fallback : ℤ) : ℤ :=
  match value with
  | none => fallback
  | some v => if truncToInt v ≤ 0 then fallback else truncToInt v

/-- Maximum of a list of rationals (`pandas` `Series.max` over a dataframe
column; the `[]` case never arises because callers guard emptiness). -/
def listMax : List ℚ → ℚ
  | [] => 0
  | x :: xs => xs.foldl max x

/-- Modelled from the spec: `compute_atr` is imported from
`strategy.technicals` but absent from the repository sources; the spec's
glossary defines ATR as a "rolling average of bar-to-bar price range", so the
last value of the window-14 rolling series is the mean of the final `window`
bar ranges, undefined (pandas NaN) while fewer than `window` bars exist. -/
def compute_atr (bars : List Bar) (window : ℕ) : Option ℚ :=
  if bars.length < window ∨ window = 0 then none
  else some ((((bars.drop (bars.length - window)).map (fun b => b.high - b.low)).sum) / window)

/-- `_trailing_stop_from_bars` (src/trader/risk_model.py lines 174-199):
high-water mark of the post-entry bar HIGHS, ATR-scaled distance clamped
between `entry*base_trail_pct` and `entry*max_trail_pct` (tighter in crash
mode). -/
def trailing_stop_from_bars (s : Settings) (bars : List Bar) (entry_price : ℚ)
    (entry_timestamp : Option ℚ) (crash_mode : Bool) : Option ℚ :=
  if bars.isEmpty then none
  else
    let frame := match entry_timestamp with
      | none => bars
      | some ts => bars.filter (fun b => decide (ts ≤ b.timestamp))
    if frame.isEmpty then none
    else
      let high_water := listMax (frame.map (fun b => b.high))
      if high_water ≤ entry_price then none
      else
        let atr_value := (compute_atr frame 14).getD 0
        if atr_value ≤ 0 then none
        else
          let trail_distance := atr_value * s.atr_multiplier * (6 / 10)
          let min_distance := entry_price * (if crash_mode then 5 / 1000 else 7 / 1000)
          let max_distance := entry_price * (if crash_mode then 5 / 100 else 8 / 100)
          some (high_water - min (max trail_distance min_distance) max_distance)

/-- The trailing stop as the spec sentence words it: identical to
`trailing_stop_from_bars` except that the high-water mark is taken over the
post-entry CLOSES instead of the bar highs.  Used only to compare the spec's
wording against the implementation (claim C9). -/
def trailing_stop_close_variant (s : Settings) (bars : List Bar) (entry_price : ℚ)
    (entry_timestamp : Option ℚ) (crash_mode : Bool) : Option ℚ :=
  if bars.isEmpty then none
  else
    let frame := match entry_timestamp with
      | none => bars
      | some ts => bars.filter (fun b => decide (ts ≤ b.timestamp))
    if frame.isEmpty then none
    else
      let high_water := listMax (frame.map (fun b => b.close))
      if high_water ≤ entry_price then none
      else
        let atr_value := (compute_atr frame 14).getD 0
        if atr_value ≤ 0 then none
        else
          let trail_distance := atr_value * s.atr_multiplier * (6 / 10)
          let min_distance := entry_price * (if crash_mode then 5 / 1000 else 7 / 1000)
          let max_distance := entry_price * (if crash_mode then 5 / 100 else 8 / 100)
          some (high_water - min (max trail_distance min_distance) max_distance)

/-- `should_exit` (src/trader/risk_model.py lines 111-171).  The final
`try`-block is modelled by `env`: `env.bars = none` means the data fetch
raised (the code then returns `_should_force_exit_on_error(symbol)`), and
`env.exit_filter` is the `passes_exit_filter(df)` collaborator result. -/
def should_exit (s : Settings) (env : ExitEnv) (p : Position) (crash_mode : Bool) : Bool :=
  if p.current_price = 0 ∨ p.entry_price = 0 then true
  else
    let tp_pct := coerce_pct p.take_profit_pct
      (if crash_mode then s.crash_take_profit_pct else TAKE_PROFIT_PCT)
    let sl_pct := coerce_pct p.stop_loss_pct
      (if crash_mode then s.crash_stop_loss_pct else STOP_LOSS_PCT)
    let max_minutes := coerce_minutes p.max_hold_minutes
      (if crash_mode then s.crash_max_hold_minutes else s.default_max_hold_minutes)
    let gain := p.current_price / p.entry_price - 1
    if tp_pct ≤ gain ∨ gain ≤ -sl_pct then true
    else
      match p.entry_timestamp with
      | .absent => false
      | .nonNumeric => false
      | .ts entry_ts =>
        if (max_minutes : ℚ) ≤ (env.now - entry_ts) / 60 then true
        else if p.data_source = some "daily" then false
        else if (match p.symbol with | none => "" | some sym => sym) = "" then false
        else
          match env.bars with
          | none => env.force_exit_on_error
          | some none => false
          | some (some bs) =>
            match trailing_stop_from_bars s bs p.entry_price (some entry_ts) crash_mode with
            | some t => if p.current_price ≤ t then true else env.exit_filter
            | none => env.exit_filter

/-- The `should_exit` evaluation as the spec's trailing-stop sentence words it
(claim C9): same control flow, but the trailing stop computed from the
post-entry high-water CLOSE. -/
def should_exit_close_variant (s : Settings) (env : ExitEnv) (p : Position)
    (crash_mode : Bool) : Bool :=
  if p.current_price = 0 ∨ p.entry_price = 0 then true
  else
    let tp_pct := coerce_pct p.take_profit_pct
      (if crash_mode then s.crash_take_profit_pct else TAKE_PROFIT_PCT)
    let sl_pct := coerce_pct p.stop_loss_pct
      (if crash_mode then s.crash_stop_loss_pct else STOP_LOSS_PCT)
    let max_minutes := coerce_minutes p.max_hold_minutes
      (if crash_mode then s.crash_max_hold_minutes else s.default_max_hold_minutes)
    let gain := p.current_price / p.entry_price - 1
    if tp_pct ≤ gain ∨ gain ≤ -sl_pct then true
    else
      match p.entry_timestamp with
      | .absent => false
      | .nonNumeric => false
      | .ts entry_ts =>
        if (max_minutes : ℚ) ≤ (env.now - entry_ts) / 60 then true
        else if p.data_source = some "daily" then false
        else if (match p.symbol with | none => "" | some sym => sym) = "" then false
        else
          match env.bars with
          | none => env.force_exit_on_error
          | some none => false
          | some (some bs) =>
            match trailing_stop_close_variant s bs p.entry_price (some entry_ts) crash_mode with
            | some t => if p.current_price ≤ t then true else env.exit_filter
            | none => env.exit_filter

/-! ### Claim C7 -/

/-- C7: `should_exit` returns `True` whenever `current_price` or `entry_price`
is falsy (missing fields default to `0.0`, and `0.0` is the falsy float),
regardless of every other field — the fail-safe close. -/
theorem c7_failsafe_exit (s : Settings) (env : ExitEnv) (p : Position) (crash : Bool)
    (h : p.current_price = 0 ∨ p.entry_price = 0) :
    should_exit s env p crash = true := by
  unfold should_exit
  rcases h with h | h <;> simp [h]

/-- Witness for C7: a position with a missing (hence `0.0`) current price is
closed no matter what the other fields say. -/
theorem c7_failsafe_exit_witness :
    should_exit sampleSettings ⟨0, some (some []), false, false⟩
      ⟨0, 100, some "AAPL", none, none, none, none, EntryTs.ts 0⟩ false = true :=
  c7_failsafe_exit sampleSettings ⟨0, some (some []), false, false⟩
    ⟨0, 100, some "AAPL", none, none, none, none, EntryTs.ts 0⟩ false (Or.inl rfl)

/-! ### Claim C10 -/

/-- C10: when the take-profit/stop-loss percentage checks do not fire and
`entry_timestamp` is absent or non-numeric, `should_exit` returns `False`
immediately — the time-stop, trailing-stop and technical-exit checks are all
skipped, for every data environment. -/
theorem c10_unknown_entry_skips_all_later_checks (s : Settings) (env : ExitEnv)
    (p : Position) (crash : Bool)
    (hp : ¬(p.current_price = 0 ∨ p.entry_price = 0))
    (hts : p.entry_timestamp = EntryTs.absent ∨ p.entry_timestamp = EntryTs.nonNumeric)
    (htp : p.current_price / p.entry_price - 1 <
      coerce_pct p.take_profit_pct (if crash then s.crash_take_profit_pct else TAKE_PROFIT_PCT))
    (hsl : -(coerce_pct p.stop_loss_pct (if crash then s.crash_stop_loss_pct else STOP_LOSS_PCT)) <
      p.current_price / p.entry_price - 1) :
    should_exit s env p crash = false := by
  unfold should_exit
  rcases hts with hts | hts <;>
    simp [hp, hts, not_le.mpr htp, not_le.mpr hsl]

/-- Witness for C10: a position up 1% with no entry timestamp is held even
though the data environment would trigger both the trailing stop and the
technical exit filter. -/
theorem c10_unknown_entry_witness :
    should_exit sampleSettings ⟨10000, some (some []), true, true⟩
      ⟨101, 100, some "AAPL", none, none, none, none, EntryTs.absent⟩ false = false := by
  refine c10_unknown_entry_skips_all_later_checks sampleSettings
      ⟨10000, some (some []), true, true⟩
      ⟨101, 100, some "AAPL", none, none, none, none, EntryTs.absent⟩ false
      (by norm_num) (Or.inl rfl) ?_ ?_
  · norm_num [coerce_pct, TAKE_PROFIT_PCT]
  · norm_num [coerce_pct, STOP_LOSS_PCT]

set_option maxRecDepth 16000

/-! ### Claim C9 -/

/-- C9 (amended): in `should_exit`'s trailing-stop check for an intraday
position whose take-profit/stop-loss/time-stop have not triggered, the
trailing stop is computed from the post-entry high-water BAR HIGH (not the
close): `distance = clamp(ATR * atr_multiplier * 0.6, entry*min_trail_pct,
entry*max_trail_pct)` with tighter trail-pct bounds in crash mode, and (with
the technical exit filter not firing) the exit fires iff the current price is
at or below `high_water - distance`. -/
theorem c9_trailing_stop_amended (s : Settings) (env : ExitEnv) (p : Position)
    (crash : Bool) (bs : List Bar) (ets : ℚ)
    (hp : ¬(p.current_price = 0 ∨ p.entry_price = 0))
    (hts : p.entry_timestamp = EntryTs.ts ets)
    (htp : p.current_price / p.entry_price - 1 <
      coerce_pct p.take_profit_pct (if crash then s.crash_take_profit_pct else TAKE_PROFIT_PCT))
    (hsl : -(coerce_pct p.stop_loss_pct
        (if crash then s.crash_stop_loss_pct else STOP_LOSS_PCT)) <
      p.current_price / p.entry_price - 1)
    (htime : (env.now - ets) / 60 <
      ((coerce_minutes p.max_hold_minutes
        (if crash then s.crash_max_hold_minutes else s.default_max_hold_minutes) : ℤ) : ℚ))
    (hds : ¬p.data_source = some "daily")
    (hsym : ¬(match p.symbol with | none => "" | some sym => sym) = "")
    (hbars : env.bars = some (some bs))
    (hfilter : env.exit_filter = false)
    (hne : bs.filter (fun b => decide (ets ≤ b.timestamp)) ≠ [])
    (hhw : p.entry_price <
      listMax ((bs.filter (fun b => decide (ets ≤ b.timestamp))).map (fun b => b.high)))
    (hatr : 0 < (compute_atr (bs.filter (fun b => decide (ets ≤ b.timestamp))) 14).getD 0) :
    should_exit s env p crash =
      decide (p.current_price ≤
        listMax ((bs.filter (fun b => decide (ets ≤ b.timestamp))).map (fun b => b.high)) -
        min (max ((compute_atr (bs.filter (fun b => decide (ets ≤ b.timestamp))) 14).getD 0 *
              s.atr_multiplier * (6 / 10))
            (p.entry_price * (if crash then 5 / 1000 else 7 / 1000)))
          (p.entry_price * (if crash then 5 / 100 else 8 / 100))) := by
  have hbs : bs ≠ [] := by
    intro h
    apply hne
    simp [h]
  have hfe : (bs.filter (fun b => decide (ets ≤ b.timestamp))).isEmpty = false := by
    simpa [List.isEmpty_iff] using hne
  unfold should_exit
  rw [hts]
  simp only [hp, if_false, hbars]
  rw [if_neg (by push_neg; exact ⟨htp, hsl⟩)]
  rw [if_neg (not_le.mpr htime)]
  rw [if_neg hds, if_neg hsym]
  unfold trailing_stop_from_bars
  rw [if_neg (by simpa [List.isEmpty_iff] using hbs)]
  simp only [hfe, Bool.false_eq_true, if_false]
  rw [if_neg (not_le.mpr hhw), if_neg (not_le.mpr hatr)]
  by_cases hc : p.current_price ≤
      listMax ((bs.filter (fun b => decide (ets ≤ b.timestamp))).map (fun b => b.high)) -
      min (max ((compute_atr (bs.filter (fun b => decide (ets ≤ b.timestamp))) 14).getD 0 *
            s.atr_multiplier * (6 / 10))
          (p.entry_price * (if crash then 5 / 1000 else 7 / 1000)))
        (p.entry_price * (if crash then 5 / 100 else 8 / 100)) <;>
    simp [hc, hfilter]

/-- Fourteen one-point-range bars after entry time 0: every high is 110 and
every close is 100, so the high-water highs and high-water closes differ. -/
def trailBars : List Bar :=
  [⟨1, 110, 109, 100⟩, ⟨2, 110, 109, 100⟩, ⟨3, 110, 109, 100⟩, ⟨4, 110, 109, 100⟩,
   ⟨5, 110, 109, 100⟩, ⟨6, 110, 109, 100⟩, ⟨7, 110, 109, 100⟩, ⟨8, 110, 109, 100⟩,
   ⟨9, 110, 109, 100⟩, ⟨10, 110, 109, 100⟩, ⟨11, 110, 109, 100⟩, ⟨12, 110, 109, 100⟩,
   ⟨13, 110, 109, 100⟩, ⟨14, 110, 109, 100⟩]

/-- An intraday position entered at 100 (timestamp 0), currently at 101, with
no per-position overrides. -/
def trailPos : Position :=
  ⟨101, 100, some "AAPL", none, none, none, none, EntryTs.ts 0⟩

/-- Counterexample for C9 as frozen: the code computes the high-water mark
from the bar HIGHS (`frame["high"].max()`), not the post-entry high-water
close.  At `trailBars` the implementation exits (high-water 110, distance
`clamp(1*2.5*0.6, 0.7, 8) = 1.5`, stop `108.5 ≥ 101`), while the spec's
close-based rule finds no trailing stop at all (high-water close 100 is not
above the entry 100) and, with every other exit condition off, would hold the
position. -/
theorem c9_counterexample :
    should_exit sampleSettings ⟨1800, some (some trailBars), false, false⟩ trailPos false = true ∧
    should_exit_close_variant sampleSettings ⟨1800, some (some trailBars), false, false⟩
      trailPos false = false := by
  constructor <;>
    norm_num [should_exit, should_exit_close_variant, trailing_stop_from_bars,
      trailing_stop_close_variant, coerce_pct, coerce_minutes, truncToInt, compute_atr,
      listMax, trailBars, trailPos, sampleSettings, TAKE_PROFIT_PCT, STOP_LOSS_PCT,
      List.filter_cons, List.isEmpty]
  all_goals simp

/-- Witness for C9 (amended) at a concrete frame: price 100.5 is below the
trailing stop `110 - 1.5 = 108.5`, so the exit fires. -/
theorem c9_trailing_stop_witness :
    should_exit sampleSettings ⟨1800, some (some trailBars), false, false⟩
      ⟨201 / 2, 100, some "AAPL", none, none, none, none, EntryTs.ts 0⟩ false = true := by
  have h := c9_trailing_stop_amended sampleSettings
      ⟨1800, some (some trailBars), false, false⟩
      ⟨201 / 2, 100, some "AAPL", none, none, none, none, EntryTs.ts 0⟩
      false trailBars 0
      (by norm_num)
      rfl
      (by norm_num [coerce_pct, TAKE_PROFIT_PCT, sampleSettings])
      (by norm_num [coerce_pct, STOP_LOSS_PCT, sampleSettings])
      (by norm_num [coerce_minutes, sampleSettings])
      (by simp)
      (by simp)
      rfl
      rfl
      (by simp [trailBars, List.filter_cons])
      (by norm_num [trailBars, List.filter_cons, listMax])
      (by norm_num [trailBars, List.filter_cons, compute_atr, listMax])
  rw [h]
  norm_num [trailBars, List.filter_cons, compute_atr, listMax, sampleSettings]

/-! ### trader/execution_adapter.py -/

/-- The process-wide halt state `(_halt_new_entries, _halt_reason, _halt_until)`
(src/trader/execution_adapter.py lines 29-31). -/
structure HaltState where
  halted : Bool
  reason : String
  halt_until : ℚ
  deriving Repr, DecidableEq

/-- A `TradeSignal` dict as read by `execute_signal`.  Numeric fields are
`none` when the key is absent. -/
structure TradeSignal where
  symbol : String
  action : Option String
  reason : Option String
  requested_qty : Option ℤ
  entry_price : Option ℚ
  stop_loss_pct : Option ℚ
  take_profit_pct : Option ℚ
  stop_loss_price : Option ℚ
  take_profit_price : Option ℚ
  max_risk_pct : Option ℚ
  deriving Repr, DecidableEq

/-- The `ExecutionResult` TypedDict. -/
structure ExecutionResult where
  symbol : String
  action : String
  submitted : Bool
  skipped : Bool
  order_id : Option String
  reason : Option String
  deriving Repr, DecidableEq

/-- The bracket `MarketOrderRequest` handed to `trading_client.submit_order`
(src/trader/execution_adapter.py lines 419-427). -/
structure BracketOrder where
  symbol : String
  qty : ℤ
  entry_price : ℚ
  stop_loss : ℚ
  take_profit : ℚ
  deriving Repr, DecidableEq

/-- Outcome of one `execute_signal`/`close_position` call: the returned
result dict, the halt state after the call, and the bracket order passed to
`submit_order` when the call reached submission (`none` otherwise). -/
structure ExecOutcome where
  result : ExecutionResult
  halt : HaltState
  order : Option BracketOrder
  deriving Repr, DecidableEq

/-- A broker position object as used by `close_position`: `parsed` holds
`(float(pos.qty), float(pos.held_for_orders or 0))`, `none` when that parse
raises. -/
structure BrokerPosition where
  parsed : Option (ℚ × ℚ)
  deriving Repr, DecidableEq

/-- Result of the `trading_client.close_position(symbol)` call: success, an
exception whose message matches the benign markers ("insufficient qty",
"no position", ...), or any other exception. -/
inductive CloseCallResult where
  | ok
  | benignError
  | otherError (msg : String)
  deriving Repr, DecidableEq

/-- External inputs of one adapter call, abstracting the broker and price
router: `none` on `positions`/`account`/`router_price` models the
corresponding call raising. -/
structure ExecEnv where
  now : ℚ
  trading_client : Bool
  positions : Option (List (String × BrokerPosition))
  positions_err : String
  account : Option (Option ℚ × Option ℚ)
  account_err : String
  router_price : Option ℚ
  router_err : String
  submit_ok : Bool
  submit_err : String
  submit_order_id : Option String
  close_result : CloseCallResult
  deriving Repr, DecidableEq

/-- Python `str.upper()` (code-point map; agrees with `.upper()` on the ASCII
ticker symbols this engine handles). -/
def pyUpper (s : String) : String :=
  ⟨s.data.map Char.toUpper⟩

/-- Python's `a or b` on strings: the fallback when the first is empty. -/
def reasonOr (r fallbackR : String) : String :=
  if r = "" then fallbackR else r

/-- `_set_halt` (src/trader/execution_adapter.py lines 60-69). -/
def set_halt (s : Settings) (now : ℚ) (reason : String) : HaltState :=
  let cooldown := max s.execution_halt_cooldown_seconds 0
  { halted := true
    reason := reason
    halt_until := if cooldown ≠ 0 then now + (cooldown : ℚ) else 0 }

/-- `_reset_halt_if_ready` (src/trader/execution_adapter.py lines 72-80). -/
def reset_halt_if_ready (h : HaltState) (now : ℚ) : HaltState :=
  if ¬h.halted then h
  else if h.halt_until ≠ 0 ∧ h.halt_until ≤ now then ⟨false, "", 0⟩
  else h

/-- `_log_skip` outcome: skip result, pass-through halt state, no order. -/
def skipOut (symbol action : String) (h : HaltState) (reason : Option String) : ExecOutcome :=
  ⟨⟨symbol, action, false, true, none, reason⟩, h, none⟩

/-- Skip after a broker failure that set the halt (`_safe_list_positions` /
`_safe_get_account` returning `None`, close failure): halt is set to `msg`
and the skip reason is `_halt_reason or fb`. -/
def haltSkipOut (s : Settings) (now : ℚ) (symbol action msg fb : String) : ExecOutcome :=
  skipOut symbol action (set_halt s now msg) (some (reasonOr (set_halt s now msg).reason fb))

/-- Successful submission outcome (src/trader/execution_adapter.py
lines 428-460). -/
def submitOkOut (symbol : String) (oid : Option String) (h : HaltState)
    (order : BracketOrder) : ExecOutcome :=
  ⟨⟨symbol, "BUY", true, false, oid, none⟩, h, some order⟩

/-- Failed submission outcome (lines 461-463): the order was handed to the
broker but `submit_order` raised, so the halt is set. -/
def submitFailOut (s : Settings) (now : ℚ) (symbol msg : String)
    (order : BracketOrder) : ExecOutcome :=
  ⟨⟨symbol, "BUY", false, true, none,
     some (reasonOr (set_halt s now msg).reason "alpaca_submit_failed")⟩,
   set_halt s now msg, some order⟩

@[simp] theorem skipOut_order (symbol action : String) (h : HaltState) (r : Option String) :
    (skipOut symbol action h r).order = none := rfl

@[simp] theorem haltSkipOut_order (s : Settings) (now : ℚ) (symbol action msg fb : String) :
    (haltSkipOut s now symbol action msg fb).order = none := rfl

@[simp] theorem submitOkOut_order (symbol : String) (oid : Option String) (h : HaltState)
    (o : BracketOrder) : (submitOkOut symbol oid h o).order = some o := rfl

@[simp] theorem submitFailOut_order (s : Settings) (now : ℚ) (symbol msg : String)
    (o : BracketOrder) : (submitFailOut s now symbol msg o).order = some o := rfl

/-- Entry-price resolution (src/trader/execution_adapter.py lines 302-307):
the signal's price if present, else `price_router.get_price`. -/
def resolve_entry_price (sig : TradeSignal) (env : ExecEnv) : Option ℚ :=
  match sig.entry_price with
  | some p => some p
  | none => env.router_price

/-- Stop-loss resolution (lines 315-334): explicit price, else an explicit
percent in `(0,1)` converted to a price, else the default table. -/
def resolve_stop_loss (s : Settings) (sig : TradeSignal) (entry : ℚ)
    (crash_mode : Bool) : ℚ :=
  match sig.stop_loss_price with
  | some v => v
  | none =>
    match sig.stop_loss_pct with
    | some pct =>
      if 0 < pct ∧ pct < 1 then round2 (entry * (1 - pct))
      else stop_loss_price s entry crash_mode
    | none => stop_loss_price s entry crash_mode

/-- Take-profit resolution (lines 316-336), mirror of `resolve_stop_loss`. -/
def resolve_take_profit (s : Settings) (sig : TradeSignal) (entry : ℚ)
    (crash_mode : Bool) : ℚ :=
  match sig.take_profit_price with
  | some v => v
  | none =>
    match sig.take_profit_pct with
    | some pct =>
      if 0 < pct ∧ pct < 1 then round2 (entry * (1 + pct))
      else take_profit_price s entry crash_mode
    | none => take_profit_price s entry crash_mode

/-- `max_risk_pct = float(signal.get("max_risk_pct") or settings.max_risk_pct
or 0.0)`, halved in crash mode (lines 373-375). -/
def effective_max_risk_pct (s : Settings) (sig : TradeSignal) (crash_mode : Bool) : ℚ :=
  let base := if sig.max_risk_pct.getD 0 ≠ 0 then sig.max_risk_pct.getD 0 else s.max_risk_pct
  if crash_mode then base * (1 / 2) else base

/-- `qty = min(requested_qty, sized_qty) if requested_qty > 0 else sized_qty`
(line 386). -/
def final_qty (sig : TradeSignal) (sized : ℤ) : ℤ :=
  if 0 < sig.requested_qty.getD 0 then min (sig.requested_qty.getD 0) sized else sized

/-- The quantity `execute_signal` computes for a BUY (lines 372-386):
risk-sized via `size_position` against the account equity, the notional cap
and the effective risk percentage, then capped by `requested_qty`. -/
def buy_qty (s : Settings) (e : RiskEnv) (sig : TradeSignal) (equity : Option ℚ)
    (entry sl : ℚ) (crash_mode : Bool) : ℤ :=
  final_qty sig (size_position entry sl equity (effective_max_risk_pct s sig crash_mode)
    (max_position_notional e s equity crash_mode) 1)

/-- Python dict lookup (`{pos.symbol: pos}` then `.get(symbol)`): last entry
for a key wins. -/
def dictGet (l : List (String × BrokerPosition)) (k : String) : Option BrokerPosition :=
  l.reverse.lookup k

/-- `close_position` (src/trader/execution_adapter.py lines 466-563).  The
P&L bookkeeping (lines 507-529) has no control-flow effect and the portfolio
state store / trade logger collaborators are outside the model. -/
def close_position (s : Settings) (env : ExecEnv) (h : HaltState) (symbol0 : String)
    (_reason : Option String) : ExecOutcome :=
  let symbol := pyUpper symbol0
  if symbol = "" then skipOut "" "CLOSE" h (some "missing_symbol")
  else if ¬env.trading_client then skipOut symbol "CLOSE" h (some "trading_client_unavailable")
  else if s.dry_run then ⟨⟨symbol, "CLOSE", false, true, none, some "dry_run"⟩, h, none⟩
  else
    match env.positions with
    | none =>
      haltSkipOut s env.now symbol "CLOSE"
        ("alpaca_list_positions_failed: " ++ env.positions_err) "alpaca_api_error"
    | some ps =>
      match dictGet ps symbol with
      | none => skipOut symbol "CLOSE" h (some "no_position")
      | some pos =>
        match pos.parsed with
        | none => skipOut symbol "CLOSE" h (some "position_parse_error")
        | some (qty, held) =>
          if qty ≤ 0 ∨ qty ≤ held then skipOut symbol "CLOSE" h (some "position_held")
          else
            match env.close_result with
            | .ok => ⟨⟨symbol, "CLOSE", true, false, none, none⟩, h, none⟩
            | .benignError => skipOut symbol "CLOSE" h (some "position_unavailable")
            | .otherError msg =>
              haltSkipOut s env.now symbol "CLOSE"
                ("alpaca_close_failed: " ++ msg) "alpaca_close_failed"

/-- Submission tail of the BUY branch (src/trader/execution_adapter.py
lines 396-463): dry-run short circuit, then `submit_order` with halt on
failure. -/
def submit_stage (s : Settings) (env : ExecEnv) (h1 : HaltState) (symbol : String)
    (order : BracketOrder) : ExecOutcome :=
  if s.dry_run then ⟨⟨symbol, "BUY", false, true, none, some "dry_run"⟩, h1, none⟩
  else if env.submit_ok then submitOkOut symbol env.submit_order_id h1 order
  else submitFailOut s env.now symbol ("alpaca_submit_failed: " ++ env.submit_err) order

/-- Sizing and buying-power section of the BUY branch (lines 372-394). -/
def sizing_stage (s : Settings) (e : RiskEnv) (env : ExecEnv) (h1 : HaltState)
    (sig : TradeSignal) (symbol : String) (crash_mode : Bool) (entry : ℚ)
    (equity buying_power : Option ℚ) : ExecOutcome :=
  if buy_qty s e sig equity entry (resolve_stop_loss s sig entry crash_mode) crash_mode ≤ 0 then
    skipOut symbol "BUY" h1 (some "risk_sizing_blocked")
  else
    match buying_power with
    | none => skipOut symbol "BUY" h1 (some "buying_power_unavailable")
    | some bp =>
      if bp ≤ 0 then skipOut symbol "BUY" h1 (some "buying_power_unavailable")
      else if bp < entry *
          (buy_qty s e sig equity entry (resolve_stop_loss s sig entry crash_mode)
            crash_mode : ℚ) then
        skipOut symbol "BUY" h1 (some "buying_power_insufficient")
      else
        submit_stage s env h1 symbol
          ⟨symbol,
           buy_qty s e sig equity entry (resolve_stop_loss s sig entry crash_mode) crash_mode,
           entry, resolve_stop_loss s sig entry crash_mode,
           resolve_take_profit s sig entry crash_mode⟩

/-- Entry-price validation, bracket validation and account fetch of the BUY
branch (lines 308-370). -/
def bracket_stage (s : Settings) (e : RiskEnv) (env : ExecEnv) (h1 : HaltState)
    (sig : TradeSignal) (symbol : String) (crash_mode : Bool) (entry : ℚ) : ExecOutcome :=
  if entry ≤ 0 then skipOut symbol "BUY" h1 (some "invalid_entry_price")
  else if resolve_stop_loss s sig entry crash_mode ≤ 0 ∨
      resolve_take_profit s sig entry crash_mode ≤ 0 ∨
      entry ≤ resolve_stop_loss s sig entry crash_mode ∨
      resolve_take_profit s sig entry crash_mode ≤ entry then
    skipOut symbol "BUY" h1 (some "invalid_bracket")
  else
    match env.account with
    | none =>
      haltSkipOut s env.now symbol "BUY"
        ("alpaca_get_account_failed: " ++ env.account_err) "alpaca_api_error"
    | some (equity, buying_power) =>
      sizing_stage s e env h1 sig symbol crash_mode entry equity buying_power

/-- `max_positions = 3 if crash_mode else MAX_POSITIONS` (line 296). -/
def buy_max_positions (e : RiskEnv) (crash_mode : Bool) : ℤ :=
  if crash_mode then 3 else e.MAX_POSITIONS

/-- The BUY branch of `execute_signal` (src/trader/execution_adapter.py
lines 287-463), entered with the halt state already refreshed. -/
def execute_buy (s : Settings) (e : RiskEnv) (env : ExecEnv) (h1 : HaltState)
    (sig : TradeSignal) (symbol : String) (crash_mode : Bool) : ExecOutcome :=
  if ¬env.trading_client then skipOut symbol "BUY" h1 (some "trading_client_unavailable")
  else if h1.halted then skipOut symbol "BUY" h1 (some (reasonOr h1.reason "alpaca_api_error"))
  else
    match env.positions with
    | none =>
      haltSkipOut s env.now symbol "BUY"
        ("alpaca_list_positions_failed: " ++ env.positions_err) "alpaca_api_error"
    | some ps =>
      if buy_max_positions e crash_mode ≤ (ps.map Prod.fst).length then
        skipOut symbol "BUY" h1 (some "max_positions_reached")
      else if symbol ∈ ps.map Prod.fst then skipOut symbol "BUY" h1 (some "position_exists")
      else
        match resolve_entry_price sig env with
        | none => skipOut symbol "BUY" h1 (some ("price_unavailable:" ++ env.router_err))
        | some entry => bracket_stage s e env h1 sig symbol crash_mode entry

/-- `action = str(signal.get("action") or "BUY").upper()` (lines 272-273). -/
def resolved_action (sig : TradeSignal) : String :=
  pyUpper (match sig.action with
   | none => "BUY"
   | some a => if a = "" then "BUY" else a)

/-- `close_reason = reason or ("sell_signal_close_only" if action == "SELL"
else None)` (line 281). -/
def close_reason_for (sig : TradeSignal) (action : String) : Option String :=
  match sig.reason with
  | some r =>
    if r = "" then (if action = "SELL" then some "sell_signal_close_only" else none)
    else some r
  | none => if action = "SELL" then some "sell_signal_close_only" else none

/-- `execute_signal` (src/trader/execution_adapter.py lines 270-463). -/
def execute_signal (s : Settings) (e : RiskEnv) (env : ExecEnv) (h : HaltState)
    (sig : TradeSignal) (crash_mode : Bool) : ExecOutcome :=
  let symbol := pyUpper sig.symbol
  let action := resolved_action sig
  if symbol = "" then skipOut "" action h (some "missing_symbol")
  else
    let h1 := reset_halt_if_ready h env.now
    if action = "SELL" ∨ action = "CLOSE" then
      close_position s env h1 symbol (close_reason_for sig action)
    else if action ≠ "BUY" then skipOut symbol action h1 (some "unsupported_action")
    else execute_buy s e env h1 sig symbol crash_mode

/-- Inversion for the submission tail: the submitted order is the one built
by the sizing stage. -/
theorem submit_stage_order_eq (s : Settings) (env : ExecEnv) (h1 : HaltState)
    (symbol : String) (order o : BracketOrder)
    (ho : (submit_stage s env h1 symbol order).order = some o) : o = order := by
  unfold submit_stage at ho
  split at ho
  · simp at ho
  · split at ho <;> simp_all

/-- Inversion for the sizing stage: a submitted order carries exactly the
risk-sized quantity, and that quantity is positive. -/
theorem sizing_stage_order_eq (s : Settings) (e : RiskEnv) (env : ExecEnv) (h1 : HaltState)
    (sig : TradeSignal) (symbol : String) (crash : Bool) (entry : ℚ)
    (equity buying_power : Option ℚ) (o : BracketOrder)
    (ho : (sizing_stage s e env h1 sig symbol crash entry equity buying_power).order = some o) :
    o = ⟨symbol, buy_qty s e sig equity entry (resolve_stop_loss s sig entry crash) crash,
         entry, resolve_stop_loss s sig entry crash, resolve_take_profit s sig entry crash⟩ ∧
    1 ≤ buy_qty s e sig equity entry (resolve_stop_loss s sig entry crash) crash := by
  unfold sizing_stage at ho
  split at ho
  · simp at ho
  · split at ho
    · simp at ho
    · split at ho
      · simp at ho
      · split at ho
        · simp at ho
        · refine ⟨submit_stage_order_eq _ _ _ _ _ _ ho, ?_⟩
          omega

/-- Inversion for the bracket stage: a submitted order has been validated
against the strict bracket ordering, and the account fetch succeeded. -/
theorem bracket_stage_order_eq (s : Settings) (e : RiskEnv) (env : ExecEnv) (h1 : HaltState)
    (sig : TradeSignal) (symbol : String) (crash : Bool) (entry : ℚ) (o : BracketOrder)
    (ho : (bracket_stage s e env h1 sig symbol crash entry).order = some o) :
    ∃ equity bp, env.account = some (equity, bp) ∧
      0 < entry ∧
      0 < resolve_stop_loss s sig entry crash ∧
      resolve_stop_loss s sig entry crash < entry ∧
      entry < resolve_take_profit s sig entry crash ∧
      o = ⟨symbol, buy_qty s e sig equity entry (resolve_stop_loss s sig entry crash) crash,
           entry, resolve_stop_loss s sig entry crash, resolve_take_profit s sig entry crash⟩ ∧
      1 ≤ buy_qty s e sig equity entry (resolve_stop_loss s sig entry crash) crash := by
  unfold bracket_stage at ho
  split at ho
  · simp at ho
  · rename_i hentry
    split at ho
    · simp at ho
    · rename_i hbr
      push_neg at hbr
      split at ho
      · simp at ho
      · rename_i equity buying_power hacct
        obtain ⟨ho1, ho2⟩ := sizing_stage_order_eq s e env h1 sig symbol crash entry
          equity buying_power o ho
        exact ⟨equity, buying_power, hacct, not_le.mp hentry, hbr.1, hbr.2.2.1, hbr.2.2.2,
          ho1, ho2⟩

/-- Inversion: whenever the BUY path hands an order to the broker, the
order's fields are exactly the resolved entry/stop/take-profit and the
risk-sized quantity, the bracket is strictly ordered, and the quantity is
positive. -/
theorem execute_buy_order_eq (s : Settings) (e : RiskEnv) (env : ExecEnv) (h1 : HaltState)
    (sig : TradeSignal) (symbol : String) (crash : Bool) (o : BracketOrder)
    (ho : (execute_buy s e env h1 sig symbol crash).order = some o) :
    ∃ equity bp, env.account = some (equity, bp) ∧
      o.symbol = symbol ∧
      0 < o.entry_price ∧ 0 < o.stop_loss ∧ o.stop_loss < o.entry_price ∧
      o.entry_price < o.take_profit ∧
      o.stop_loss = resolve_stop_loss s sig o.entry_price crash ∧
      o.take_profit = resolve_take_profit s sig o.entry_price crash ∧
      o.qty = buy_qty s e sig equity o.entry_price o.stop_loss crash ∧
      1 ≤ o.qty := by
  unfold execute_buy at ho
  split at ho
  · simp at ho
  · split at ho
    · simp at ho
    · split at ho
      · simp at ho
      · split at ho
        · simp at ho
        · split at ho
          · simp at ho
          · split at ho
            · simp at ho
            · rename_i entry hep
              obtain ⟨equity, bp, hacct, hent, hsl, hso, hto, hoeq, hq⟩ :=
                bracket_stage_order_eq s e env h1 sig symbol crash entry o ho
              subst hoeq
              exact ⟨equity, bp, hacct, rfl, hent, hsl, hso, hto, rfl, rfl, rfl, hq⟩

/-- Floor commutes with binary minimum. -/
theorem floor_min_eq (a b : ℚ) : ⌊min a b⌋ = min ⌊a⌋ ⌊b⌋ := by
  rcases le_total a b with hab | hab
  · rw [min_eq_left hab, min_eq_left (Int.floor_le_floor hab)]
  · rw [min_eq_right hab, min_eq_right (Int.floor_le_floor hab)]

/-- `final_qty` never exceeds the risk-sized quantity. -/
theorem final_qty_le (sig : TradeSignal) (sized : ℤ) : final_qty sig sized ≤ sized := by
  unfold final_qty
  split
  · exact min_le_right _ _
  · exact le_refl _

/-- When `size_position` admits a positive quantity and both the entry price
and the notional cap are positive, the result is bounded by both floors. -/
theorem size_position_le_floors (entry stop eqv mrp mnot : ℚ) (minq : ℤ)
    (hpos : 1 ≤ size_position entry stop (some eqv) mrp mnot minq)
    (hentry : 0 < entry) (hmnot : 0 < mnot) :
    size_position entry stop (some eqv) mrp mnot minq ≤
      min ⌊eqv * mrp / risk_per_share entry stop⌋ ⌊mnot / entry⌋ := by
  have hcond : ¬(entry ≤ 0 ∨ mnot ≤ 0) := by
    push_neg
    exact ⟨hentry, hmnot⟩
  by_cases h1 : risk_per_share entry stop ≤ 0
  · simp [size_position, h1] at hpos
  by_cases h2 : eqv ≤ 0
  · simp [size_position, h1, h2] at hpos
  by_cases h3 : mrp ≤ 0
  · simp [size_position, h1, h2, h3] at hpos
  by_cases h4 : eqv * mrp ≤ 0
  · simp [size_position, h1, h2, h3, h4] at hpos
  by_cases h5 : min ⌊eqv * mrp / risk_per_share entry stop⌋ ⌊mnot / entry⌋ < minq
  · simp [size_position, h1, h2, h3, h4, hcond, h5] at hpos
  · simp [size_position, h1, h2, h3, h4, hcond, h5]

/-- `close_position` never submits a bracket order. -/
theorem close_position_order_none (s : Settings) (env : ExecEnv) (h : HaltState)
    (symbol0 : String) (reason : Option String) :
    (close_position s env h symbol0 reason).order = none := by
  unfold close_position
  dsimp only
  repeat' split
  all_goals rfl

/-- Any submitted order of `execute_signal` comes from the BUY branch with
the refreshed halt state and the upper-cased symbol. -/
theorem execute_signal_order_some (s : Settings) (e : RiskEnv) (env : ExecEnv)
    (h : HaltState) (sig : TradeSignal) (crash : Bool) (o : BracketOrder)
    (ho : (execute_signal s e env h sig crash).order = some o) :
    (execute_buy s e env (reset_halt_if_ready h env.now) sig (pyUpper sig.symbol)
      crash).order = some o := by
  unfold execute_signal at ho
  dsimp only at ho
  split at ho
  · simp at ho
  · split at ho
    · rw [close_position_order_none] at ho
      simp at ho
    · split at ho
      · simp at ho
      · exact ho

/-! ### Claim C1 -/

/-- C1: for every BUY signal that `execute_signal` admits and submits, the
submitted quantity is at least 1 (a non-positive quantity is never submitted),
never exceeds `floor(min(risk_cap/risk_per_share, max_notional/entry_price))`
with `risk_cap = equity * effective max_risk_pct` and
`max_notional = max_position_notional(equity, crash_mode)`, and whenever the
signal carries a positive `requested_qty` it equals
`min(requested_qty, sized_qty)`. -/
theorem c1_submitted_qty_bounded (s : Settings) (e : RiskEnv) (env : ExecEnv)
    (h : HaltState) (sig : TradeSignal) (crash : Bool) (o : BracketOrder)
    (eqv : ℚ) (obp : Option ℚ)
    (hacct : env.account = some (some eqv, obp))
    (hnot : 0 < max_position_notional e s (some eqv) crash)
    (ho : (execute_signal s e env h sig crash).order = some o) :
    1 ≤ o.qty ∧
    o.qty ≤ ⌊min (eqv * effective_max_risk_pct s sig crash /
        risk_per_share o.entry_price o.stop_loss)
        (max_position_notional e s (some eqv) crash / o.entry_price)⌋ ∧
    (∀ rq : ℤ, sig.requested_qty = some rq → 0 < rq →
      o.qty = min rq (size_position o.entry_price o.stop_loss (some eqv)
        (effective_max_risk_pct s sig crash)
        (max_position_notional e s (some eqv) crash) 1)) := by
  have hbo := execute_signal_order_some s e env h sig crash o ho
  obtain ⟨equity, bp, hacct2, hsym, hent, hslp, hso, hto, hsleq, htpeq, hqeq, hq1⟩ :=
    execute_buy_order_eq s e env _ sig _ crash o hbo
  rw [hacct] at hacct2
  have hequity : equity = some eqv :=
    (congrArg Prod.fst (Option.some.inj hacct2)).symm
  subst hequity
  have hsized : o.qty ≤ size_position o.entry_price o.stop_loss (some eqv)
      (effective_max_risk_pct s sig crash)
      (max_position_notional e s (some eqv) crash) 1 := by
    rw [hqeq]
    exact final_qty_le sig _
  have hsized1 : 1 ≤ size_position o.entry_price o.stop_loss (some eqv)
      (effective_max_risk_pct s sig crash)
      (max_position_notional e s (some eqv) crash) 1 := le_trans hq1 hsized
  refine ⟨hq1, ?_, ?_⟩
  · rw [floor_min_eq]
    exact le_trans hsized
      (size_position_le_floors o.entry_price o.stop_loss eqv _ _ 1 hsized1 hent hnot)
  · intro rq hrq hrqpos
    rw [hqeq]
    unfold buy_qty final_qty
    rw [hrq]
    simp [hrqpos]

/-- The broker environment of the witness scenarios: client available, no open
positions, equity and buying power 100000. -/
def sampleExecEnv : ExecEnv where
  now := 1000
  trading_client := true
  positions := some []
  positions_err := ""
  account := some (some 100000, some 100000)
  account_err := ""
  router_price := none
  router_err := ""
  submit_ok := true
  submit_err := "boom"
  submit_order_id := some "order-1"
  close_result := .ok

/-- A BUY signal with an explicit bracket (entry 100, stop 99, take-profit
102), `requested_qty=100` and `max_risk_pct=0.01`. -/
def sampleBuySignal : TradeSignal where
  symbol := "AAPL"
  action := some "BUY"
  reason := none
  requested_qty := some 100
  entry_price := some 100
  stop_loss_pct := none
  take_profit_pct := none
  stop_loss_price := some 99
  take_profit_price := some 102
  max_risk_pct := some (1 / 100)

/-- The halt state of an idle adapter. -/
def idleHalt : HaltState := ⟨false, "", 0⟩

/-- The order the witness scenario submits: risk bound 1000, notional bound
`floor((10000/3)/100) = 33`, requested 100, so quantity `min(100, 33) = 33`. -/
def sampleOrder : BracketOrder := ⟨"AAPL", 33, 100, 99, 102⟩

/-- Evaluation of the witness scenario: the sample BUY signal is submitted as
`sampleOrder`. -/
theorem sample_buy_submits :
    (execute_signal sampleSettings sampleRiskEnv sampleExecEnv idleHalt
      sampleBuySignal false).order = some sampleOrder := by
  have hs : pyUpper "AAPL" = "AAPL" := by decide
  have hb : pyUpper "BUY" = "BUY" := by decide
  have e1 : ("AAPL" : String) ≠ "" := by decide
  have e2 : ("BUY" : String) ≠ "SELL" := by decide
  have e3 : ("BUY" : String) ≠ "CLOSE" := by decide
  norm_num [execute_signal, resolved_action, hs, hb, e1, e2, e3, reset_halt_if_ready, idleHalt,
    execute_buy, bracket_stage, sizing_stage, submit_stage, buy_qty, final_qty,
    size_position, risk_per_share, effective_max_risk_pct, max_position_notional,
    resolve_entry_price, resolve_stop_loss, resolve_take_profit, buy_max_positions,
    sampleExecEnv, sampleBuySignal, sampleSettings, sampleRiskEnv, sampleOrder,
    submitOkOut]

/-- Witness for C1: in the sample scenario (`requested_qty=100`, risk-sized
quantity 33) the submitted quantity is 33 and respects both bounds. -/
theorem c1_submitted_qty_witness :
    1 ≤ sampleOrder.qty ∧
    sampleOrder.qty ≤ ⌊min ((100000 : ℚ) * effective_max_risk_pct sampleSettings
        sampleBuySignal false / risk_per_share sampleOrder.entry_price sampleOrder.stop_loss)
        (max_position_notional sampleRiskEnv sampleSettings (some 100000) false /
          sampleOrder.entry_price)⌋ ∧
    sampleOrder.qty = min 100 (size_position sampleOrder.entry_price sampleOrder.stop_loss
      (some 100000) (effective_max_risk_pct sampleSettings sampleBuySignal false)
      (max_position_notional sampleRiskEnv sampleSettings (some 100000) false) 1) := by
  obtain ⟨w1, w2, w3⟩ := c1_submitted_qty_bounded sampleSettings sampleRiskEnv sampleExecEnv
    idleHalt sampleBuySignal false sampleOrder 100000 (some 100000)
    (by norm_num [sampleExecEnv])
    (by norm_num [max_position_notional, sampleRiskEnv, sampleSettings])
    sample_buy_submits
  exact ⟨w1, w2, w3 100 rfl (by norm_num)⟩

/-! ### Claim C3 -/

/-- C3: every bracket order the adapter submits satisfies
`0 < stop_loss < entry_price < take_profit` strictly; and a BUY signal that
reaches bracket validation with a violating (or non-positive) resolved
bracket is skipped pre-submission with reason `invalid_bracket` and no order
is submitted. -/
theorem c3_bracket_strict (s : Settings) (e : RiskEnv) (env : ExecEnv) (h : HaltState)
    (sig : TradeSignal) (crash : Bool) :
    (∀ o : BracketOrder, (execute_signal s e env h sig crash).order = some o →
      0 < o.stop_loss ∧ o.stop_loss < o.entry_price ∧ o.entry_price < o.take_profit) ∧
    (∀ entry : ℚ, 0 < entry →
      (resolve_stop_loss s sig entry crash ≤ 0 ∨
       resolve_take_profit s sig entry crash ≤ 0 ∨
       entry ≤ resolve_stop_loss s sig entry crash ∨
       resolve_take_profit s sig entry crash ≤ entry) →
      ∀ h1 symbol, bracket_stage s e env h1 sig symbol crash entry =
        skipOut symbol "BUY" h1 (some "invalid_bracket")) := by
  constructor
  · intro o ho
    obtain ⟨equity, bp, hacct2, hsym, hent, hslp, hso, hto, hsleq, htpeq, hqeq, hq1⟩ :=
      execute_buy_order_eq s e env _ sig _ crash o
        (execute_signal_order_some s e env h sig crash o ho)
    exact ⟨hslp, hso, hto⟩
  · intro entry hentry hbad h1 symbol
    unfold bracket_stage
    rw [if_neg (not_le.mpr hentry), if_pos hbad]

/-- Witness for C3: the sample submission satisfies the strict bracket
ordering `99 < 100 < 102`, and a signal whose stop equals its entry is
rejected as `invalid_bracket`. -/
theorem c3_bracket_strict_witness :
    (0 < sampleOrder.stop_loss ∧ sampleOrder.stop_loss < sampleOrder.entry_price ∧
      sampleOrder.entry_price < sampleOrder.take_profit) ∧
    bracket_stage sampleSettings sampleRiskEnv sampleExecEnv idleHalt
      ⟨"AAPL", some "BUY", none, none, some 100, none, none, some 100, some 102, none⟩
      "AAPL" false 100 =
      skipOut "AAPL" "BUY" idleHalt (some "invalid_bracket") := by
  constructor
  · exact (c3_bracket_strict sampleSettings sampleRiskEnv sampleExecEnv idleHalt
      sampleBuySignal false).1 sampleOrder sample_buy_submits
  · exact (c3_bracket_strict sampleSettings sampleRiskEnv sampleExecEnv idleHalt
      ⟨"AAPL", some "BUY", none, none, some 100, none, none, some 100, some 102, none⟩
      false).2 100 (by norm_num)
      (by norm_num [resolve_stop_loss, resolve_take_profit])
      idleHalt "AAPL"

/-! ### Claim C4 : submit failure halts, halt blocks, cooldown clears -/

/-- Inversion for the submission tail when `submit_order` raises: the outcome
is exactly the halt-setting failure outcome. -/
theorem submit_stage_fail_eq (s : Settings) (env : ExecEnv) (h1 : HaltState)
    (symbol : String) (order o : BracketOrder)
    (hsub : env.submit_ok = false)
    (ho : (submit_stage s env h1 symbol order).order = some o) :
    submit_stage s env h1 symbol order =
      submitFailOut s env.now symbol ("alpaca_submit_failed: " ++ env.submit_err) o := by
  obtain rfl := submit_stage_order_eq s env h1 symbol order o ho
  unfold submit_stage at ho ⊢
  split at ho
  · simp at ho
  · rename_i hdry
    rw [if_neg hdry, hsub]
    simp

/-- Lift of `submit_stage_fail_eq` through the sizing stage. -/
theorem sizing_stage_fail_eq (s : Settings) (e : RiskEnv) (env : ExecEnv) (h1 : HaltState)
    (sig : TradeSignal) (symbol : String) (crash : Bool) (entry : ℚ)
    (equity buying_power : Option ℚ) (o : BracketOrder)
    (hsub : env.submit_ok = false)
    (ho : (sizing_stage s e env h1 sig symbol crash entry equity buying_power).order = some o) :
    sizing_stage s e env h1 sig symbol crash entry equity buying_power =
      submitFailOut s env.now symbol ("alpaca_submit_failed: " ++ env.submit_err) o := by
  unfold sizing_stage at ho ⊢
  split at ho
  · simp at ho
  · rename_i hq
    rw [if_neg hq]
    split at ho
    · simp at ho
    · split at ho
      · simp at ho
      · rename_i hbp0
        rw [if_neg hbp0]
        split at ho
        · simp at ho
        · rename_i hnotional
          rw [if_neg hnotional]
          exact submit_stage_fail_eq s env h1 symbol _ o hsub ho

/-- Lift of `submit_stage_fail_eq` through the bracket stage. -/
theorem bracket_stage_fail_eq (s : Settings) (e : RiskEnv) (env : ExecEnv) (h1 : HaltState)
    (sig : TradeSignal) (symbol : String) (crash : Bool) (entry : ℚ) (o : BracketOrder)
    (hsub : env.submit_ok = false)
    (ho : (bracket_stage s e env h1 sig symbol crash entry).order = some o) :
    bracket_stage s e env h1 sig symbol crash entry =
      submitFailOut s env.now symbol ("alpaca_submit_failed: " ++ env.submit_err) o := by
  unfold bracket_stage at ho ⊢
  split at ho
  · simp at ho
  · rename_i hentry
    rw [if_neg hentry]
    split at ho
    · simp at ho
    · rename_i hbr
      rw [if_neg hbr]
      split at ho
      · simp at ho
      · rename_i equity buying_power hacct
        exact sizing_stage_fail_eq s e env h1 sig symbol crash entry equity buying_power o
          hsub ho

/-- Lift of `submit_stage_fail_eq` through the whole BUY branch. -/
theorem execute_buy_fail_eq (s : Settings) (e : RiskEnv) (env : ExecEnv) (h1 : HaltState)
    (sig : TradeSignal) (symbol : String) (crash : Bool) (o : BracketOrder)
    (hsub : env.submit_ok = false)
    (ho : (execute_buy s e env h1 sig symbol crash).order = some o) :
    execute_buy s e env h1 sig symbol crash =
      submitFailOut s env.now symbol ("alpaca_submit_failed: " ++ env.submit_err) o := by
  unfold execute_buy at ho ⊢
  split at ho
  · simp at ho
  · rename_i htc
    rw [if_neg htc]
    split at ho
    · simp at ho
    · rename_i hhalt
      rw [if_neg hhalt]
      split at ho
      · simp at ho
      · rename_i ps hps
        split at ho
        · simp at ho
        · rename_i hcap
          rw [if_neg hcap]
          split at ho
          · simp at ho
          · rename_i hmem
            rw [if_neg hmem]
            split at ho
            · simp at ho
            · rename_i entry hentry
              exact bracket_stage_fail_eq s e env h1 sig symbol crash entry o hsub ho

/-- Lift of `submit_stage_fail_eq` to `execute_signal`. -/
theorem execute_signal_fail_eq (s : Settings) (e : RiskEnv) (env : ExecEnv) (h : HaltState)
    (sig : TradeSignal) (crash : Bool) (o : BracketOrder)
    (hsub : env.submit_ok = false)
    (ho : (execute_signal s e env h sig crash).order = some o) :
    execute_signal s e env h sig crash =
      submitFailOut s env.now (pyUpper sig.symbol)
        ("alpaca_submit_failed: " ++ env.submit_err) o := by
  unfold execute_signal at ho ⊢
  dsimp only at ho ⊢
  split at ho
  · simp at ho
  · rename_i hsym
    rw [if_neg hsym]
    split at ho
    · rw [close_position_order_none] at ho
      simp at ho
    · rename_i hact
      rw [if_neg hact]
      split at ho
      · simp at ho
      · rename_i hbuy
        rw [if_neg hbuy]
        exact execute_buy_fail_eq s e env _ sig _ crash o hsub ho

/-- While an active halt is in force (not yet clearable), a well-formed BUY
signal with an available trading client is skipped with the halt reason. -/
theorem halted_buy_skipped (s : Settings) (e : RiskEnv) (env2 : ExecEnv) (h2 : HaltState)
    (sig2 : TradeSignal) (crash2 : Bool)
    (hh : h2.halted = true)
    (hstay : h2.halt_until = 0 ∨ env2.now < h2.halt_until)
    (htc : env2.trading_client = true)
    (hsym : pyUpper sig2.symbol ≠ "")
    (hact : resolved_action sig2 = "BUY") :
    execute_signal s e env2 h2 sig2 crash2 =
      skipOut (pyUpper sig2.symbol) "BUY" h2 (some (reasonOr h2.reason "alpaca_api_error")) := by
  have hreset : reset_halt_if_ready h2 env2.now = h2 := by
    unfold reset_halt_if_ready
    rw [if_neg (by simp [hh])]
    rcases hstay with h0 | hlt
    · rw [if_neg (by simp [h0])]
    · rw [if_neg (fun hc => absurd hc.2 (not_le.mpr hlt))]
  unfold execute_signal
  dsimp only
  rw [if_neg hsym, hact]
  rw [if_neg (by simp)]
  rw [if_neg (by simp)]
  rw [hreset]
  unfold execute_buy
  rw [if_neg (by simp [htc]), if_pos hh]

/-- Once the wall clock passes a nonzero `halt_until` of an active halt, the
next call behaves exactly as with a fresh idle halt state. -/
theorem halt_cleared_eq (s : Settings) (e : RiskEnv) (env3 : ExecEnv) (h3 : HaltState)
    (sig3 : TradeSignal) (crash3 : Bool)
    (hh : h3.halted = true)
    (hnz : h3.halt_until ≠ 0)
    (hle : h3.halt_until ≤ env3.now)
    (hsym : pyUpper sig3.symbol ≠ "") :
    execute_signal s e env3 h3 sig3 crash3 = execute_signal s e env3 idleHalt sig3 crash3 := by
  have hreset : reset_halt_if_ready h3 env3.now = idleHalt := by
    unfold reset_halt_if_ready idleHalt
    rw [if_neg (by simp [hh]), if_pos ⟨hnz, hle⟩]
  have hreset2 : reset_halt_if_ready idleHalt env3.now = idleHalt := by
    simp [reset_halt_if_ready, idleHalt]
  unfold execute_signal
  dsimp only
  rw [if_neg hsym, if_neg hsym, hreset, hreset2]

/-- C4: when `submit_order` raises on an admitted BUY, the halt state becomes
halted with a reason containing `alpaca_submit_failed` and `halted_until` one
cooldown ahead of the wall clock; every subsequent BUY while the halt is in
force is skipped with that reason and no order; and once the wall clock
reaches `halted_until` the halt clears automatically, the next call behaving
exactly as with no halt. -/
theorem c4_submit_failure_halt_cycle (s : Settings) (e : RiskEnv) (env : ExecEnv)
    (h : HaltState) (sig : TradeSignal) (crash : Bool) (o : BracketOrder)
    (hcool : 0 < s.execution_halt_cooldown_seconds)
    (hnow : 0 ≤ env.now)
    (hsub : env.submit_ok = false)
    (ho : (execute_signal s e env h sig crash).order = some o) :
    (execute_signal s e env h sig crash).halt.halted = true ∧
    (∃ post, (execute_signal s e env h sig crash).halt.reason =
      "alpaca_submit_failed: " ++ post) ∧
    (execute_signal s e env h sig crash).halt.halt_until =
      env.now + (s.execution_halt_cooldown_seconds : ℚ) ∧
    (∀ (env2 : ExecEnv) (sig2 : TradeSignal) (crash2 : Bool),
      env2.now < (execute_signal s e env h sig crash).halt.halt_until →
      env2.trading_client = true → pyUpper sig2.symbol ≠ "" →
      resolved_action sig2 = "BUY" →
      (execute_signal s e env2 (execute_signal s e env h sig crash).halt sig2
        crash2).result.skipped = true ∧
      (execute_signal s e env2 (execute_signal s e env h sig crash).halt sig2
        crash2).result.reason =
        some (execute_signal s e env h sig crash).halt.reason ∧
      (execute_signal s e env2 (execute_signal s e env h sig crash).halt sig2
        crash2).order = none) ∧
    (∀ (env3 : ExecEnv) (sig3 : TradeSignal) (crash3 : Bool),
      (execute_signal s e env h sig crash).halt.halt_until ≤ env3.now →
      pyUpper sig3.symbol ≠ "" →
      execute_signal s e env3 (execute_signal s e env h sig crash).halt sig3 crash3 =
        execute_signal s e env3 idleHalt sig3 crash3) := by
  have hout := execute_signal_fail_eq s e env h sig crash o hsub ho
  have hmax : max s.execution_halt_cooldown_seconds 0 = s.execution_halt_cooldown_seconds :=
    max_eq_left (le_of_lt hcool)
  have hhalt : (execute_signal s e env h sig crash).halt =
      set_halt s env.now ("alpaca_submit_failed: " ++ env.submit_err) := by
    rw [hout]
    rfl
  have hhalted : (execute_signal s e env h sig crash).halt.halted = true := by
    rw [hhalt]
    rfl
  have hreason : (execute_signal s e env h sig crash).halt.reason =
      "alpaca_submit_failed: " ++ env.submit_err := by
    rw [hhalt]
    simp [set_halt]
  have huntil : (execute_signal s e env h sig crash).halt.halt_until =
      env.now + (s.execution_halt_cooldown_seconds : ℚ) := by
    rw [hhalt]
    unfold set_halt
    dsimp only
    rw [hmax, if_pos (by omega : s.execution_halt_cooldown_seconds ≠ 0)]
  have hreason_ne : (execute_signal s e env h sig crash).halt.reason ≠ "" := by
    rw [hreason]
    intro hc
    have hlen := congrArg String.length hc
    rw [String.length_append] at hlen
    have h22 : ("alpaca_submit_failed: " : String).length = 22 := by decide
    have h0 : ("" : String).length = 0 := by decide
    rw [h22, h0] at hlen
    omega
  refine ⟨hhalted, ⟨env.submit_err, hreason⟩, huntil, ?_, ?_⟩
  · intro env2 sig2 crash2 hlt htc hsym hact
    rw [halted_buy_skipped s e env2 _ sig2 crash2 hhalted (Or.inr hlt) htc hsym hact]
    refine ⟨rfl, ?_, rfl⟩
    show some (reasonOr _ "alpaca_api_error") = _
    rw [reasonOr, if_neg hreason_ne]
  · intro env3 sig3 crash3 hle hsym
    refine halt_cleared_eq s e env3 _ sig3 crash3 hhalted ?_ hle hsym
    rw [huntil]
    intro hc
    have : (0 : ℚ) < (s.execution_halt_cooldown_seconds : ℚ) := by
      exact_mod_cast hcool
    linarith

/-- The witness broker environment whose `submit_order` raises. -/
def sampleFailEnv : ExecEnv :=
  { sampleExecEnv with submit_ok := false }

/-- Evaluation of the failing witness scenario: the order is built and handed
to the broker, whose `submit_order` raises. -/
theorem sample_buy_submit_fails :
    (execute_signal sampleSettings sampleRiskEnv sampleFailEnv idleHalt
      sampleBuySignal false).order = some sampleOrder := by
  have hs : pyUpper "AAPL" = "AAPL" := by decide
  have hb : pyUpper "BUY" = "BUY" := by decide
  have e1 : ("AAPL" : String) ≠ "" := by decide
  have e2 : ("BUY" : String) ≠ "SELL" := by decide
  have e3 : ("BUY" : String) ≠ "CLOSE" := by decide
  norm_num [execute_signal, resolved_action, hs, hb, e1, e2, e3, reset_halt_if_ready, idleHalt,
    execute_buy, bracket_stage, sizing_stage, submit_stage, buy_qty, final_qty,
    size_position, risk_per_share, effective_max_risk_pct, max_position_notional,
    resolve_entry_price, resolve_stop_loss, resolve_take_profit, buy_max_positions,
    sampleFailEnv, sampleExecEnv, sampleBuySignal, sampleSettings, sampleRiskEnv, sampleOrder,
    submitFailOut]

/-- Witness for C4: after the failing submission at wall clock 1000 with a
300-second cooldown, the halt is active until 1300 and a BUY at wall clock
1100 is skipped with the halt's reason. -/
theorem c4_submit_failure_witness :
    (execute_signal sampleSettings sampleRiskEnv sampleFailEnv idleHalt sampleBuySignal
      false).halt.halted = true ∧
    (execute_signal sampleSettings sampleRiskEnv sampleFailEnv idleHalt sampleBuySignal
      false).halt.halt_until = 1300 ∧
    (execute_signal sampleSettings sampleRiskEnv
      { sampleExecEnv with now := 1100 }
      (execute_signal sampleSettings sampleRiskEnv sampleFailEnv idleHalt sampleBuySignal
        false).halt
      sampleBuySignal false).order = none := by
  obtain ⟨w1, w2, w3, w4, w5⟩ := c4_submit_failure_halt_cycle sampleSettings sampleRiskEnv
    sampleFailEnv idleHalt sampleBuySignal false sampleOrder
    (by norm_num [sampleSettings])
    (by norm_num [sampleFailEnv, sampleExecEnv])
    (by norm_num [sampleFailEnv, sampleExecEnv])
    sample_buy_submit_fails
  refine ⟨w1, ?_, ?_⟩
  · rw [w3]
    norm_num [sampleFailEnv, sampleExecEnv, sampleSettings]
  · refine (w4 { sampleExecEnv with now := 1100 } sampleBuySignal false ?_ ?_ ?_ ?_).2.2
    · rw [w3]
      norm_num [sampleFailEnv, sampleExecEnv, sampleSettings]
    · norm_num [sampleExecEnv]
    · have : pyUpper "AAPL" = "AAPL" := by decide
      simp [sampleBuySignal, this]
    · decide

/-! ### Claim C5 -/

/-- C5: while the halt state is active, no BUY signal submits an order; every
SELL/CLOSE signal is dispatched to `close_position` irrespective of the halt
flag; and `close_position` performs no halt check — its returned result is
the same for every input halt state (and it never submits an entry order). -/
theorem c5_halt_blocks_entries_not_exits (s : Settings) (e : RiskEnv) (env : ExecEnv)
    (h : HaltState) (sig : TradeSignal) (crash : Bool) :
    (h.halted = true → (h.halt_until = 0 ∨ env.now < h.halt_until) →
      resolved_action sig = "BUY" →
      (execute_signal s e env h sig crash).order = none ∧
      (execute_signal s e env h sig crash).result.submitted = false) ∧
    ((resolved_action sig = "SELL" ∨ resolved_action sig = "CLOSE") →
      pyUpper sig.symbol ≠ "" →
      execute_signal s e env h sig crash =
        close_position s env (reset_halt_if_ready h env.now) (pyUpper sig.symbol)
          (close_reason_for sig (resolved_action sig))) ∧
    (∀ (h' : HaltState) (symbol0 : String) (r : Option String),
      (close_position s env h symbol0 r).result = (close_position s env h' symbol0 r).result ∧
      (close_position s env h symbol0 r).order = none) := by
  refine ⟨?_, ?_, ?_⟩
  · intro hh hstay hact
    by_cases hsym : pyUpper sig.symbol = ""
    · unfold execute_signal
      dsimp only
      rw [if_pos hsym]
      exact ⟨rfl, rfl⟩
    · by_cases htc : env.trading_client = true
      · rw [halted_buy_skipped s e env h sig crash hh hstay htc hsym hact]
        exact ⟨rfl, rfl⟩
      · unfold execute_signal
        dsimp only
        rw [if_neg hsym, hact]
        rw [if_neg (by simp)]
        rw [if_neg (by simp)]
        unfold execute_buy
        rw [if_pos (by simpa using htc)]
        exact ⟨rfl, rfl⟩
  · intro hact hsym
    unfold execute_signal
    dsimp only
    rw [if_neg hsym, if_pos hact]
  · intro h' symbol0 r
    refine ⟨?_, close_position_order_none s env h symbol0 r⟩
    unfold close_position
    dsimp only
    by_cases h1 : pyUpper symbol0 = ""
    · rw [if_pos h1, if_pos h1]
      rfl
    rw [if_neg h1, if_neg h1]
    by_cases h2 : ¬env.trading_client = true
    · rw [if_pos h2, if_pos h2]
      rfl
    rw [if_neg h2, if_neg h2]
    by_cases h3 : s.dry_run = true
    · rw [if_pos h3, if_pos h3]
    rw [if_neg h3, if_neg h3]
    cases hps : env.positions with
    | none => rfl
    | some ps =>
      dsimp only
      cases hd : dictGet ps (pyUpper symbol0) with
      | none => rfl
      | some pos =>
        dsimp only
        cases hp : pos.parsed with
        | none => rfl
        | some qh =>
          obtain ⟨qty, held⟩ := qh
          dsimp only
          by_cases h4 : qty ≤ 0 ∨ qty ≤ held
          · rw [if_pos h4, if_pos h4]
            rfl
          rw [if_neg h4, if_neg h4]
          cases env.close_result <;> rfl

/-- Witness for C5: with an active halt (until 1300, clock 1000) the sample
BUY is blocked, while a CLOSE signal is dispatched to `close_position` and
closes the position. -/
theorem c5_halt_witness :
    (execute_signal sampleSettings sampleRiskEnv sampleExecEnv
      ⟨true, "alpaca_submit_failed: boom", 1300⟩ sampleBuySignal false).order = none ∧
    (execute_signal sampleSettings sampleRiskEnv sampleExecEnv
      ⟨true, "alpaca_submit_failed: boom", 1300⟩ sampleBuySignal false).result.submitted =
      false := by
  have hact : resolved_action sampleBuySignal = "BUY" := by decide
  exact (c5_halt_blocks_entries_not_exits sampleSettings sampleRiskEnv sampleExecEnv
    ⟨true, "alpaca_submit_failed: boom", 1300⟩ sampleBuySignal false).1 rfl
    (Or.inr (by norm_num [sampleExecEnv])) hact

/-! ### strategy/signal_router.py and strategy/swing.py -/

/-- A routed signal dict, restricted to the fields the routing control flow
reads: `type` (`"orb"`, `"momentum"`, `"reversal"` or `"swing"`), the optional
`score` (reversal/dip-buy dicts carry none, so the sort key falls back to 0),
and `data_source` (`"daily"` for swing signals). -/
structure Signal where
  symbol : String
  type : String
  score : Option ℚ
  data_source : Option String
  deriving Repr, DecidableEq

/-- The per-symbol content of one `generate_swing_signals` emission
(src/strategy/swing.py lines 97-111): the computed score before the 0.95 cap.
The SMA/RSI/sentiment gating that decides WHETHER a symbol is emitted lives
in the `ta` collaborator and is abstracted into the emitted list. -/
structure SwingPayload where
  symbol : String
  score : ℚ
  deriving Repr, DecidableEq

/-- The dict literal appended by `generate_swing_signals`: always
`type="swing"`, `score=min(score, 0.95)`, `data_source="daily"`. -/
def mk_swing_signal (p : SwingPayload) : Signal :=
  ⟨p.symbol, "swing", some (min p.score (95 / 100)), some "daily"⟩

/-- One `find_orb_setups` emission (src/strategy/orb.py lines 168-178):
always `type="orb"` with a numeric score. -/
structure OrbPayload where
  symbol : String
  score : ℚ
  deriving Repr, DecidableEq

/-- The dict literal returned by the ORB detector. -/
def mk_orb_signal (p : OrbPayload) : Signal :=
  ⟨p.symbol, "orb", some p.score, none⟩

/-- Outcome of the per-symbol body of the ML loop in `route_signals`
(src/strategy/signal_router.py lines 156-382), abstracting the pandas/ta
scoring internals: `skipContinue` is any of the `continue` paths (rate limit,
thresholds, missing data — these bypass the crash-mode cap check),
`noEmit` falls through without appending, `momentum` appends a
`type="momentum"` dict carrying `score=final_score`, and `reversal` covers
both the dip-buy and reversal emissions, whose dicts carry no `score` key. -/
inductive LoopOutcome where
  | skipContinue
  | noEmit
  | momentum (finalScore : ℚ)
  | reversal
  deriving Repr, DecidableEq

/-- External inputs of one `route_signals` cycle. -/
structure RouteEnv where
  intraday_fresh : Bool
  orb_payloads : List OrbPayload
  orb_regime_pass : String → Bool
  ml_symbols : List String
  loop_outcome : String → LoopOutcome
  swing_payloads : List SwingPayload

/-- The momentum dict appended at src/strategy/signal_router.py line 288. -/
def mk_momentum_signal (sym : String) (sc : ℚ) : Signal :=
  ⟨sym, "momentum", some sc, none⟩

/-- The dip-buy/reversal dicts appended at lines 322 and 357 (no `score`
key). -/
def mk_reversal_signal (sym : String) : Signal :=
  ⟨sym, "reversal", none, none⟩

/-- The ML/momentum/reversal loop of `route_signals` (lines 156-382): symbols
claimed by ORB are skipped, emissions are appended in order, and in crash
mode the loop breaks as soon as three signals have accumulated (checked after
every non-`continue` iteration, line 380). -/
def route_loop (crash_mode : Bool) (outcome : String → LoopOutcome)
    (skip_syms : List String) : List String → List Signal → List Signal
  | [], acc => acc
  | sym :: rest, acc =>
    if sym ∈ skip_syms then route_loop crash_mode outcome skip_syms rest acc
    else
      match outcome sym with
      | .skipContinue => route_loop crash_mode outcome skip_syms rest acc
      | .noEmit =>
        if crash_mode ∧ 3 ≤ acc.length then acc
        else route_loop crash_mode outcome skip_syms rest acc
      | .momentum sc =>
        if crash_mode ∧ 3 ≤ (acc ++ [mk_momentum_signal sym sc]).length then
          acc ++ [mk_momentum_signal sym sc]
        else route_loop crash_mode outcome skip_syms rest (acc ++ [mk_momentum_signal sym sc])
      | .reversal =>
        if crash_mode ∧ 3 ≤ (acc ++ [mk_reversal_signal sym]).length then
          acc ++ [mk_reversal_signal sym]
        else route_loop crash_mode outcome skip_syms rest (acc ++ [mk_reversal_signal sym])

/-- The regime gate over ORB signals (lines 131-147): outside crash mode each
ORB signal must pass the daily-regime score gate; in crash mode (or with no
ORB signals) the list passes through unchanged. -/
def filtered_orb_signals (crash_mode : Bool) (env : RouteEnv) : List Signal :=
  if crash_mode then env.orb_payloads.map mk_orb_signal
  else (env.orb_payloads.filter (fun p => env.orb_regime_pass p.symbol)).map mk_orb_signal

/-- `signals.sort(key=lambda item: float(item.get("score", 0.0)), reverse=True)`
(line 383): stable descending sort on the optional score with default 0. -/
def sortSignalsDesc (l : List Signal) : List Signal :=
  l.mergeSort (fun a b => decide ((b.score.getD 0) ≤ (a.score.getD 0)))

/-- The intraday signal list of one fresh cycle: gated ORB signals followed by
the loop's momentum/reversal emissions. -/
def intraday_signals (crash_mode : Bool) (env : RouteEnv) : List Signal :=
  route_loop crash_mode env.loop_outcome (env.orb_payloads.map (fun p => p.symbol))
    env.ml_symbols (filtered_orb_signals crash_mode env)

/-- `route_signals` (src/strategy/signal_router.py lines 81-96 and 383-392):
stale intraday data routes straight to the swing fallback; otherwise the
intraday signals are sorted and returned — unless none were produced, in
which case the swing fallback runs as well. -/
def route_signals (crash_mode : Bool) (env : RouteEnv) : List Signal :=
  if ¬env.intraday_fresh then env.swing_payloads.map mk_swing_signal
  else
    if sortSignalsDesc (intraday_signals crash_mode env) ≠ [] then
      sortSignalsDesc (intraday_signals crash_mode env)
    else env.swing_payloads.map mk_swing_signal

/-- Every signal the ML loop adds on top of `acc` is a momentum or reversal
dict. -/
theorem route_loop_types (crash_mode : Bool) (outcome : String → LoopOutcome)
    (skip_syms : List String) (syms : List String) (acc : List Signal) (sg : Signal)
    (hmem : sg ∈ route_loop crash_mode outcome skip_syms syms acc) :
    sg ∈ acc ∨ sg.type = "momentum" ∨ sg.type = "reversal" := by
  induction syms generalizing acc with
  | nil => exact Or.inl hmem
  | cons sym rest ih =>
    unfold route_loop at hmem
    split at hmem
    · exact ih acc hmem
    · split at hmem
      · exact ih acc hmem
      · split at hmem
        · exact Or.inl hmem
        · exact ih acc hmem
      · rename_i sc
        split at hmem
        · rcases List.mem_append.mp hmem with hmem | hmem
          · exact Or.inl hmem
          · rw [List.mem_singleton] at hmem
            subst hmem
            exact Or.inr (Or.inl rfl)
        · rcases ih _ hmem with h2 | hm | hr
          · rcases List.mem_append.mp h2 with h | h
            · exact Or.inl h
            · rw [List.mem_singleton] at h
              subst h
              exact Or.inr (Or.inl rfl)
          · exact Or.inr (Or.inl hm)
          · exact Or.inr (Or.inr hr)
      · split at hmem
        · rcases List.mem_append.mp hmem with hmem | hmem
          · exact Or.inl hmem
          · rw [List.mem_singleton] at hmem
            subst hmem
            exact Or.inr (Or.inr rfl)
        · rcases ih _ hmem with h2 | hm | hr
          · rcases List.mem_append.mp h2 with h | h
            · exact Or.inl h
            · rw [List.mem_singleton] at h
              subst h
              exact Or.inr (Or.inr rfl)
          · exact Or.inr (Or.inl hm)
          · exact Or.inr (Or.inr hr)

/-- Membership is preserved by the descending score sort. -/
theorem mem_sortSignalsDesc (l : List Signal) (sg : Signal) :
    sg ∈ sortSignalsDesc l ↔ sg ∈ l :=
  (List.mergeSort_perm l _).mem_iff

/-- Every intraday signal of a cycle has type orb, momentum or reversal —
never swing. -/
theorem intraday_signals_not_swing (crash_mode : Bool) (env : RouteEnv) (sg : Signal)
    (hmem : sg ∈ intraday_signals crash_mode env) : sg.type ≠ "swing" := by
  rcases route_loop_types crash_mode env.loop_outcome _ env.ml_symbols _ sg hmem with
    hacc | hm | hr
  · have : sg.type = "orb" := by
      unfold filtered_orb_signals at hacc
      split at hacc <;>
        · obtain ⟨p, -, rfl⟩ := List.mem_map.mp hacc
          rfl
    rw [this]
    decide
  · rw [hm]
    decide
  · rw [hr]
    decide

/-! ### Claim C8 -/

/-- C8 (amended): swing-type signals are returned only when intraday data is
stale/unavailable, or when the intraday strategies produced no signal at all
for the cycle (the second fallback at the end of `route_signals`); whenever
fresh intraday data yields at least one intraday signal, the returned list
contains no swing signal. -/
theorem c8_swing_fallback_amended (crash_mode : Bool) (env : RouteEnv) :
    (env.intraday_fresh = false →
      route_signals crash_mode env = env.swing_payloads.map mk_swing_signal) ∧
    (env.intraday_fresh = true → intraday_signals crash_mode env = [] →
      route_signals crash_mode env = env.swing_payloads.map mk_swing_signal) ∧
    (env.intraday_fresh = true → intraday_signals crash_mode env ≠ [] →
      route_signals crash_mode env = sortSignalsDesc (intraday_signals crash_mode env) ∧
      ∀ sg ∈ route_signals crash_mode env, sg.type ≠ "swing") := by
  refine ⟨?_, ?_, ?_⟩
  · intro hstale
    unfold route_signals
    rw [if_pos (by simp [hstale])]
  · intro hfresh hempty
    unfold route_signals
    rw [if_neg (by simp [hfresh])]
    rw [if_neg (by simp [sortSignalsDesc, hempty])]
  · intro hfresh hne
    have hsne : sortSignalsDesc (intraday_signals crash_mode env) ≠ [] := by
      intro hc
      apply hne
      have := (List.mergeSort_perm (intraday_signals crash_mode env)
        (fun a b => decide ((b.score.getD 0) ≤ (a.score.getD 0)))).length_eq
      rw [show sortSignalsDesc (intraday_signals crash_mode env) =
        (intraday_signals crash_mode env).mergeSort _ from rfl] at hc
      rw [hc] at this
      exact List.length_eq_zero.mp this.symm
    have hroute : route_signals crash_mode env =
        sortSignalsDesc (intraday_signals crash_mode env) := by
      unfold route_signals
      rw [if_neg (by simp [hfresh]), if_pos hsne]
    refine ⟨hroute, ?_⟩
    intro sg hsg
    rw [hroute] at hsg
    exact intraday_signals_not_swing crash_mode env sg
      ((mem_sortSignalsDesc _ sg).mp hsg)

/-- The counterexample cycle: intraday data is fresh, but no ORB setup exists
and the ML loop emits nothing, while one swing setup exists. -/
def routeEnvC8 : RouteEnv where
  intraday_fresh := true
  orb_payloads := []
  orb_regime_pass := fun _ => true
  ml_symbols := ["AAPL"]
  loop_outcome := fun _ => LoopOutcome.skipContinue
  swing_payloads := [⟨"AAPL", 1 / 2⟩]

/-- Counterexample for C8 as frozen: with fresh intraday data but an empty
intraday signal list, `route_signals` still returns swing-type signals via
the second fallback (src/strategy/signal_router.py lines 383-392), so swing
signals are not produced only in stale cycles. -/
theorem c8_counterexample :
    routeEnvC8.intraday_fresh = true ∧
    route_signals false routeEnvC8 =
      [⟨"AAPL", "swing", some (1 / 2), some "daily"⟩] ∧
    ∃ sg ∈ route_signals false routeEnvC8, sg.type = "swing" := by
  have hroute : route_signals false routeEnvC8 =
      [⟨"AAPL", "swing", some (1 / 2), some "daily"⟩] := by
    norm_num [route_signals, routeEnvC8, intraday_signals, filtered_orb_signals,
      route_loop, sortSignalsDesc, mk_swing_signal, List.mergeSort]
  refine ⟨rfl, hroute, ⟨"AAPL", "swing", some (1 / 2), some "daily"⟩, ?_, rfl⟩
  rw [hroute]
  simp

/-- A fresh cycle whose ML loop emits one momentum signal. -/
def routeEnvC8b : RouteEnv where
  intraday_fresh := true
  orb_payloads := []
  orb_regime_pass := fun _ => true
  ml_symbols := ["MSFT"]
  loop_outcome := fun _ => LoopOutcome.momentum (7 / 10)
  swing_payloads := [⟨"AAPL", 1 / 2⟩]

/-- Witness for C8 (amended): a fresh cycle that produced one momentum signal
returns it and contains no swing signal. -/
theorem c8_swing_fallback_witness :
    route_signals false routeEnvC8b =
      sortSignalsDesc (intraday_signals false routeEnvC8b) ∧
    ∀ sg ∈ route_signals false routeEnvC8b, sg.type ≠ "swing" := by
  refine (c8_swing_fallback_amended false routeEnvC8b).2.2 rfl ?_
  norm_num [intraday_signals, routeEnvC8b, filtered_orb_signals, route_loop]

end ScoutBot